import Mathlib

/-!
Verification of the Finance Teacher development server (`src/dev-server.py`),
a static-file HTTP server that injects permissive CORS headers.

The handler subclasses the standard static-file handler, overriding
`end_headers` (append the three CORS headers) and `do_OPTIONS` (answer 200
with an empty body).  Those two overrides are embedded directly from the
source.  The inherited static-file resolution, the accept loop and the
process-level start/stop behaviour are not part of the repository's source;
they are modelled from the specification where a claim needs them.
-/

namespace DevServer

/-- HTTP request: method, request path and request headers (§3 of the spec:
the only entity is an ephemeral Request). -/
structure Request where
  method : String
  path : String
  reqHeaders : List (String × String)
deriving Repr, DecidableEq

/-- HTTP response: status code, response headers in the order they are sent,
and the body as a list of bytes. -/
structure Response where
  status : Nat
  headers : List (String × String)
  body : List Nat
deriving Repr, DecidableEq

/-- The three CORS headers appended by `CORSRequestHandler.end_headers`
(src/dev-server.py lines 14-16), in source order with their exact values. -/
def corsHeaders : List (String × String) :=
  [("Access-Control-Allow-Origin", "*"),
   ("Access-Control-Allow-Methods", "GET, POST, OPTIONS"),
   ("Access-Control-Allow-Headers", "*")]

/-- Default headers that `send_response` emits before any explicitly sent
header: the server software string and the response date.  The date is a
parameter of the embedding since it varies per response. -/
def defaultHeaders (date : String) : List (String × String) :=
  [("Server", "SimpleHTTP/0.6 Python/3"), ("Date", date)]

/-- Embedding of `CORSRequestHandler.end_headers` (src/dev-server.py lines
13-17): given the headers already sent for this response, append the three
CORS headers and then finalize (`super().end_headers()` writes the blank
line, adding no further headers). -/
def end_headers (sent : List (String × String)) : List (String × String) :=
  sent ++ corsHeaders

/-- Embedding of `CORSRequestHandler.do_OPTIONS` (src/dev-server.py lines
19-21): `send_response(200)` followed by `end_headers()`; no body is written
and no Content-Type/Content-Length header is sent. -/
def do_OPTIONS (date : String) : Response :=
  { status := 200, headers := end_headers (defaultHeaders date), body := [] }

/-- Absolute or root-relative filesystem path, as a list of name segments. -/
abbrev FsPath := List String

/-- Filesystem: a finite association of absolute paths to file contents. -/
abbrev FS := List (FsPath × List Nat)

/-- Split a character list on a separator character. -/
def splitOnChar (c : Char) : List Char → List (List Char)
  | [] => [[]]
  | x :: xs =>
    match splitOnChar c xs with
    | [] => if x = c then [[], []] else [[x]]
    | y :: ys => if x = c then [] :: y :: ys else (x :: y) :: ys

/-- Strip the query string and fragment from a request path: keep the
characters before the first `?` or `#`. -/
def dropQuery (cs : List Char) : List Char :=
  cs.takeWhile (fun c => c != '?' && c != '#')

/-- Path segments of a request path: split on `/` and drop empty and `.`
components. -/
def rawSegs (path : String) : List String :=
  ((splitOnChar '/' (dropQuery path.toList)).map String.mk).filter
    (fun s => s != "" && s != ".")

/-- Normalize segments against a stack: `..` pops one level; popping past the
root means the path escapes the root and is rejected (`none`). -/
def normSegs : List String → List String → Option (List String)
  | acc, [] => some acc.reverse
  | acc, s :: rest =>
    if s = ".." then
      match acc with
      | [] => none
      | _ :: acc' => normSegs acc' rest
    else normSegs (s :: acc) rest

/-- Root-relative segments a request path resolves to, or `none` when the
path attempts to traverse above the root. -/
def segsOf (path : String) : Option (List String) :=
  normSegs [] (rawSegs path)

/-- Extension of a file name: the part after the last dot, or `""` when the
name has no dot. -/
def extOf (name : String) : String :=
  match (splitOnChar '.' name.toList).reverse with
  | [] => ""
  | [_] => ""
  | e :: _ => String.mk e

/-- MIME type for a file extension (the extension-to-type table used when
serving a file). -/
def mimeOf (ext : String) : String :=
  if ext = "html" then "text/html"
  else if ext = "htm" then "text/html"
  else if ext = "js" then "text/javascript"
  else if ext = "css" then "text/css"
  else if ext = "json" then "application/json"
  else if ext = "png" then "image/png"
  else if ext = "txt" then "text/plain"
  else "application/octet-stream"

/-- Content type inferred from a file name: a function of its extension
only. -/
def guessType (name : String) : String :=
  mimeOf (extOf name)

/-- Directory requests map to the index file: the empty segment list (the
path `/`) is replaced by `index.html`. -/
def indexSegs (segs : List String) : List String :=
  if segs = [] then ["index.html"] else segs

/-- Modelled from the spec: static-file path resolution of the inherited
standard handler, which is not part of src/.  Per §4.1: map `/` to an index
file if present, reject path traversal outside the root, fail when the
resolved path does not exist; otherwise produce the resolved absolute path
and the file's bytes. -/
def resolvePath (fs : FS) (root : FsPath) (path : String) :
    Option (FsPath × List Nat) :=
  match segsOf path with
  | none => none
  | some segs =>
    match List.lookup (root ++ indexSegs segs) fs with
    | some c => some (root ++ indexSegs segs, c)
    | none => none

/-- Body of an error response (the standard handler sends a short HTML
explanation; its exact bytes are immaterial to the spec). -/
def errorBody (code : Nat) : List Nat :=
  ("Error " ++ toString code).toList.map Char.toNat

/-- Modelled from the spec: the error response the standard handler sends
(`send_error`), which finalizes through the overridden `end_headers`, so the
CORS headers are appended to it as well. -/
def send_error (date : String) (code : Nat) : Response :=
  { status := code,
    headers := end_headers (defaultHeaders date ++
      [("Connection", "close"),
       ("Content-Type", "text/html;charset=utf-8"),
       ("Content-Length", toString (errorBody code).length)]),
    body := errorBody code }

/-- Modelled from the spec: non-OPTIONS request handling of the inherited
standard handler (§4.1 step 2): resolve the path against the root; on
failure answer 404, otherwise answer 200 with the file's bytes, a
Content-Type inferred from the file extension and a Content-Length equal to
the byte length of the served content.  Every response finalizes through the
overridden `end_headers`. -/
def serveFile (date : String) (fs : FS) (root : FsPath) (req : Request) :
    Response :=
  match resolvePath fs root req.path with
  | none => send_error date 404
  | some (p, content) =>
    { status := 200,
      headers := end_headers (defaultHeaders date ++
        [("Content-Type", guessType (p.getLastD "")),
         ("Content-Length", toString content.length)]),
      body := content }

/-- Top-level per-request behaviour of `CORSRequestHandler`: `OPTIONS` is
answered by `do_OPTIONS` without consulting the filesystem; every other
method falls through to the inherited static-file handling. -/
def handleRequest (date : String) (fs : FS) (root : FsPath) (req : Request) :
    Response :=
  if req.method = "OPTIONS" then do_OPTIONS date
  else serveFile date fs root req

/-- The values of the three CORS headers carried by a response, looked up by
header name. -/
def corsValues (r : Response) : Option String × Option String × Option String :=
  (List.lookup "Access-Control-Allow-Origin" r.headers,
   List.lookup "Access-Control-Allow-Methods" r.headers,
   List.lookup "Access-Control-Allow-Headers" r.headers)

/-- Fixed listening port, `PORT = 8000` (src/dev-server.py line 24). -/
def PORT : Nat := 8000

/-- Listening configuration established at startup: bind host, port and the
directory files are served from. -/
structure ServerConfig where
  host : String
  port : Nat
  root : FsPath
deriving Repr, DecidableEq

/-- Embedding of startup (src/dev-server.py lines 23-29): `os.chdir` to the
directory containing the script, then `socketserver.TCPServer(("", PORT), …)`,
where the empty host string binds all interfaces.  The invoker's working
directory `cwd` is taken as an argument to express that the result does not
depend on it. -/
def startupConfig (_cwd : FsPath) (scriptDir : FsPath) : ServerConfig :=
  { host := "", port := PORT, root := scriptDir }

/-- Render an absolute path for the startup banner. -/
def renderPath (p : FsPath) : String :=
  "/" ++ String.intercalate "/" p

/-- Startup banner printed to standard output (src/dev-server.py
lines 30-34). -/
def startupBanner (root : FsPath) : List String :=
  ["🚀 Finance Teacher development server running at:",
   "   http://localhost:8000",
   "\n📁 Serving files from: " ++ renderPath root,
   "🔑 Using API key from main.js",
   "\nPress Ctrl+C to stop the server"]

/-- Shutdown confirmation printed on KeyboardInterrupt (src/dev-server.py
line 39). -/
def shutdownMessage : String :=
  "\n\n✅ Development server stopped"

/-- Modelled from the spec: the accept loop (§5) handles each accepted
request to completion before accepting the next, so a trace of the serving
state is the pointwise handling of the accepted requests. -/
def serveAll (date : String) (fs : FS) (root : FsPath)
    (reqs : List Request) : List Response :=
  reqs.map (handleRequest date fs root)

/-- Observable outcome of one run of the process: how many bind attempts
were made, the responses sent, the standard-output lines, and the exit
code. -/
structure ProcessResult where
  bindAttempts : Nat
  responses : List Response
  stdoutLines : List String
  exitCode : Nat
deriving Repr, DecidableEq

/-- Modelled from the spec: whole-process behaviour (§4.1 failure semantics,
§6 exit codes), which lives in the interpreter and stdlib rather than in
src/.  If the port is in use the single bind attempt fails and the process
exits non-zero with a message; otherwise the server prints the banner,
serves requests one at a time, and on the interrupt signal — delivered at a
request boundary after `interruptAfter` requests have been fully answered —
stops accepting, prints the confirmation and exits 0. -/
def runProcess (date : String) (portInUse : Bool) (fs : FS)
    (cwd scriptDir : FsPath) (reqs : List Request) (interruptAfter : Nat) :
    ProcessResult :=
  if portInUse then
    { bindAttempts := 1,
      responses := [],
      stdoutLines := ["OSError: [Errno 98] Address already in use"],
      exitCode := 1 }
  else
    { bindAttempts := 1,
      responses := serveAll date fs (startupConfig cwd scriptDir).root
        (reqs.take interruptAfter),
      stdoutLines := startupBanner (startupConfig cwd scriptDir).root ++
        [shutdownMessage],
      exitCode := 0 }

/-! Helper lemmas shared by the claim theorems. -/

/-- Equation lemma: when the path traverses above the root, resolution
fails. -/
theorem resolvePath_eq_none (fs : FS) (root : FsPath) (path : String)
    (hs : segsOf path = none) : resolvePath fs root path = none := by
  unfold resolvePath
  rw [hs]

/-- Equation lemma: when the path normalizes to `segs`, resolution is the
lookup of `root ++ indexSegs segs`. -/
theorem resolvePath_eq_lookup (fs : FS) (root : FsPath) (path : String)
    (segs : List String) (hs : segsOf path = some segs) :
    resolvePath fs root path =
      match List.lookup (root ++ indexSegs segs) fs with
      | some c => some (root ++ indexSegs segs, c)
      | none => none := by
  unfold resolvePath
  rw [hs]

/-- Every successfully resolved path extends the root, and the served bytes
are exactly the stored contents of that path. -/
theorem resolvePath_under_root (fs : FS) (root : FsPath) (path : String)
    (p : FsPath) (c : List Nat)
    (h : resolvePath fs root path = some (p, c)) :
    ∃ rel, p = root ++ rel ∧ List.lookup (root ++ rel) fs = some c := by
  rcases hs : segsOf path with _ | segs
  · rw [resolvePath_eq_none fs root path hs] at h
    exact Option.noConfusion h
  · rw [resolvePath_eq_lookup fs root path segs hs] at h
    rcases hl : List.lookup (root ++ indexSegs segs) fs with _ | c' <;>
      rw [hl] at h
    · exact Option.noConfusion h
    · have h2 : (root ++ indexSegs segs, c') = (p, c) := Option.some.inj h
      cases h2
      exact ⟨indexSegs segs, rfl, hl⟩

/-- Branch lemma: an OPTIONS request is handled by `do_OPTIONS`. -/
theorem handleRequest_options (date : String) (fs : FS) (root : FsPath)
    (req : Request) (hm : req.method = "OPTIONS") :
    handleRequest date fs root req = do_OPTIONS date := by
  simp [handleRequest, hm]

/-- Branch lemma: a non-OPTIONS request whose path does not resolve is
answered by `send_error 404`. -/
theorem handleRequest_not_options_none (date : String) (fs : FS)
    (root : FsPath) (req : Request) (hm : ¬ req.method = "OPTIONS")
    (hr : resolvePath fs root req.path = none) :
    handleRequest date fs root req = send_error date 404 := by
  simp [handleRequest, hm, serveFile, hr]

/-- Branch lemma: a non-OPTIONS request whose path resolves is answered with
the file's bytes. -/
theorem handleRequest_not_options_some (date : String) (fs : FS)
    (root : FsPath) (req : Request) (p : FsPath) (c : List Nat)
    (hm : ¬ req.method = "OPTIONS")
    (hr : resolvePath fs root req.path = some (p, c)) :
    handleRequest date fs root req =
      { status := 200,
        headers := end_headers (defaultHeaders date ++
          [("Content-Type", guessType (p.getLastD "")),
           ("Content-Length", toString c.length)]),
        body := c } := by
  simp [handleRequest, hm, serveFile, hr]

/-- Every finalized response's header list ends with the CORS headers. -/
theorem handleRequest_headers_split (date : String) (fs : FS)
    (root : FsPath) (req : Request) :
    ∃ pre, (handleRequest date fs root req).headers = pre ++ corsHeaders := by
  by_cases hm : req.method = "OPTIONS"
  · exact ⟨defaultHeaders date,
      by rw [handleRequest_options date fs root req hm]; rfl⟩
  · rcases hr : resolvePath fs root req.path with _ | ⟨p, c⟩
    · exact ⟨_, by rw [handleRequest_not_options_none date fs root req hm hr]; rfl⟩
    · exact ⟨_, by rw [handleRequest_not_options_some date fs root req p c hm hr]; rfl⟩

/-- The CORS header values carried by any finalized response are the three
fixed constants. -/
theorem corsValues_handleRequest (date : String) (fs : FS) (root : FsPath)
    (req : Request) :
    corsValues (handleRequest date fs root req) =
      (some "*", some "GET, POST, OPTIONS", some "*") := by
  by_cases hm : req.method = "OPTIONS"
  · rw [handleRequest_options date fs root req hm]
    rfl
  · rcases hr : resolvePath fs root req.path with _ | ⟨p, c⟩
    · rw [handleRequest_not_options_none date fs root req hm hr]
      rfl
    · rw [handleRequest_not_options_some date fs root req p c hm hr]
      rfl

/-! Claim theorems. -/

/-- C1: every request of method OPTIONS, to any path and over any
filesystem, is answered with status 200, an empty body and the three CORS
headers with exactly the specified values, and the response is one and the
same whatever the filesystem, root and path are — no file resolution takes
place for this method. -/
theorem options_preflight_uniform (date : String) (fs fs' : FS)
    (root root' : FsPath) (p p' : String)
    (hs hs' : List (String × String)) :
    (handleRequest date fs root ⟨"OPTIONS", p, hs⟩).status = 200 ∧
    (handleRequest date fs root ⟨"OPTIONS", p, hs⟩).body = [] ∧
    ("Access-Control-Allow-Origin", "*") ∈
      (handleRequest date fs root ⟨"OPTIONS", p, hs⟩).headers ∧
    ("Access-Control-Allow-Methods", "GET, POST, OPTIONS") ∈
      (handleRequest date fs root ⟨"OPTIONS", p, hs⟩).headers ∧
    ("Access-Control-Allow-Headers", "*") ∈
      (handleRequest date fs root ⟨"OPTIONS", p, hs⟩).headers ∧
    handleRequest date fs root ⟨"OPTIONS", p, hs⟩ =
      handleRequest date fs' root' ⟨"OPTIONS", p', hs'⟩ := by
  refine ⟨rfl, rfl, ?_, ?_, ?_, rfl⟩ <;>
    simp [handleRequest, do_OPTIONS, end_headers, defaultHeaders, corsHeaders]

/-- C2: every response the handler finalizes — success or error, for any
method and any path — carries the three CORS headers with exactly the
specified values. -/
theorem cors_headers_on_every_response (date : String) (fs : FS)
    (root : FsPath) (req : Request) :
    ("Access-Control-Allow-Origin", "*") ∈
      (handleRequest date fs root req).headers ∧
    ("Access-Control-Allow-Methods", "GET, POST, OPTIONS") ∈
      (handleRequest date fs root req).headers ∧
    ("Access-Control-Allow-Headers", "*") ∈
      (handleRequest date fs root req).headers := by
  obtain ⟨pre, hpre⟩ := handleRequest_headers_split date fs root req
  rw [hpre]
  refine ⟨?_, ?_, ?_⟩ <;> simp [corsHeaders]

/-- C3: a non-OPTIONS request whose path resolves to an existing file under
the root is answered 200, with a body byte-for-byte equal to the file's
contents, a Content-Type inferred from the resolved file name's extension
and a Content-Length equal to the byte length of the served content. -/
theorem existing_file_served (date : String) (fs : FS) (root : FsPath)
    (req : Request) (p : FsPath) (content : List Nat)
    (hm : req.method ≠ "OPTIONS")
    (hr : resolvePath fs root req.path = some (p, content)) :
    (handleRequest date fs root req).status = 200 ∧
    (handleRequest date fs root req).body = content ∧
    ("Content-Type", mimeOf (extOf (p.getLastD ""))) ∈
      (handleRequest date fs root req).headers ∧
    ("Content-Length", toString content.length) ∈
      (handleRequest date fs root req).headers := by
  rw [handleRequest_not_options_some date fs root req p content hm hr]
  refine ⟨rfl, rfl, ?_, ?_⟩ <;>
    simp [end_headers, defaultHeaders, corsHeaders, guessType]

/-- Witness for C3: a concrete filesystem holding `/app/index.html` with
bytes `[104, 105]`, requested by `GET /index.html`. -/
theorem existing_file_served_witness :
    (Request.mk "GET" "/index.html" []).method ≠ "OPTIONS" ∧
    resolvePath [(["app", "index.html"], [104, 105])] ["app"] "/index.html" =
      some (["app", "index.html"], [104, 105]) ∧
    ((handleRequest "day0" [(["app", "index.html"], [104, 105])] ["app"]
        (Request.mk "GET" "/index.html" [])).status = 200 ∧
      (handleRequest "day0" [(["app", "index.html"], [104, 105])] ["app"]
        (Request.mk "GET" "/index.html" [])).body = [104, 105] ∧
      ("Content-Type", mimeOf (extOf (List.getLastD ["app", "index.html"] ""))) ∈
        (handleRequest "day0" [(["app", "index.html"], [104, 105])] ["app"]
          (Request.mk "GET" "/index.html" [])).headers ∧
      ("Content-Length", toString (List.length [104, 105])) ∈
        (handleRequest "day0" [(["app", "index.html"], [104, 105])] ["app"]
          (Request.mk "GET" "/index.html" [])).headers) :=
  ⟨by decide, by decide,
   existing_file_served "day0" [(["app", "index.html"], [104, 105])] ["app"]
     (Request.mk "GET" "/index.html" []) ["app", "index.html"] [104, 105]
     (by decide) (by decide)⟩

/-- C4: for non-OPTIONS requests the served content always comes from under
the root: any 200 response's body is the stored contents of a path that
extends the root, and a request path that traverses above the root (a `..`
segment popping past the root) is rejected with a 404 whose body is the
error page — so no response ever carries the contents of a file outside the
root. -/
theorem no_escape_outside_root (date : String) (fs : FS) (root : FsPath)
    (req : Request) (hm : req.method ≠ "OPTIONS") :
    ((handleRequest date fs root req).status = 200 →
      ∃ rel content, List.lookup (root ++ rel) fs = some content ∧
        (handleRequest date fs root req).body = content) ∧
    (segsOf req.path = none →
      (handleRequest date fs root req).status = 404 ∧
      (handleRequest date fs root req).body = errorBody 404) := by
  constructor
  · intro h200
    rcases hr : resolvePath fs root req.path with _ | ⟨p, c⟩
    · rw [handleRequest_not_options_none date fs root req hm hr] at h200
      simp [send_error] at h200
    · obtain ⟨rel, hp, hl⟩ := resolvePath_under_root fs root req.path p c hr
      refine ⟨rel, c, hl, ?_⟩
      rw [handleRequest_not_options_some date fs root req p c hm hr]
  · intro hseg
    rw [handleRequest_not_options_none date fs root req hm
      (resolvePath_eq_none fs root req.path hseg)]
    exact ⟨rfl, rfl⟩

/-- Witness for C4: `GET /../secret` against a filesystem that stores a file
at `/secret`, outside the root `/app`; the path is rejected and the response
is a 404. -/
theorem no_escape_outside_root_witness :
    (Request.mk "GET" "/../secret" []).method ≠ "OPTIONS" ∧
    segsOf "/../secret" = none ∧
    (handleRequest "day1" [(["secret"], [42])] ["app"]
      (Request.mk "GET" "/../secret" [])).status = 404 :=
  ⟨by decide, by decide,
   ((no_escape_outside_root "day1" [(["secret"], [42])] ["app"]
      (Request.mk "GET" "/../secret" []) (by decide)).2 (by decide)).1⟩

/-- C5: a non-OPTIONS request whose path has no corresponding file under the
root is answered 404, still carrying the three CORS headers; handling is a
total function applied per request, so a trace containing the failing
request still answers every request exactly once and the failing request
leaves the handling of every other request unchanged. -/
theorem missing_file_404 (date : String) (fs : FS) (root : FsPath)
    (req : Request) (hm : req.method ≠ "OPTIONS")
    (hr : resolvePath fs root req.path = none) :
    (handleRequest date fs root req).status = 404 ∧
    ("Access-Control-Allow-Origin", "*") ∈
      (handleRequest date fs root req).headers ∧
    ("Access-Control-Allow-Methods", "GET, POST, OPTIONS") ∈
      (handleRequest date fs root req).headers ∧
    ("Access-Control-Allow-Headers", "*") ∈
      (handleRequest date fs root req).headers ∧
    (∀ pre post : List Request,
      serveAll date fs root (pre ++ req :: post) =
        serveAll date fs root pre ++
          handleRequest date fs root req :: serveAll date fs root post) ∧
    (∀ reqs : List Request,
      (serveAll date fs root reqs).length = reqs.length) := by
  rw [handleRequest_not_options_none date fs root req hm hr]
  refine ⟨rfl, ?_, ?_, ?_, ?_, ?_⟩
  · simp [send_error, end_headers, defaultHeaders, corsHeaders]
  · simp [send_error, end_headers, defaultHeaders, corsHeaders]
  · simp [send_error, end_headers, defaultHeaders, corsHeaders]
  · intro pre post
    simp [serveAll, handleRequest_not_options_none date fs root req hm hr]
  · intro reqs
    simp [serveAll]

/-- Witness for C5: `GET /does-not-exist.js` over an empty filesystem is
answered 404. -/
theorem missing_file_404_witness :
    (Request.mk "GET" "/does-not-exist.js" []).method ≠ "OPTIONS" ∧
    resolvePath [] ["app"] "/does-not-exist.js" = none ∧
    (handleRequest "day2" [] ["app"]
      (Request.mk "GET" "/does-not-exist.js" [])).status = 404 :=
  ⟨by decide, by decide,
   (missing_file_404 "day2" [] ["app"]
      (Request.mk "GET" "/does-not-exist.js" []) (by decide) (by decide)).1⟩

/-- C6: startup binds host "" (all interfaces) on the fixed constant port
8000 and serves files rooted at the directory containing the entry-point
script; the resulting configuration is the same whatever the invoker's
working directory is. -/
theorem startup_binds_8000_script_dir (cwd cwd' scriptDir : FsPath) :
    (startupConfig cwd scriptDir).port = 8000 ∧
    (startupConfig cwd scriptDir).host = "" ∧
    (startupConfig cwd scriptDir).root = scriptDir ∧
    startupConfig cwd scriptDir = startupConfig cwd' scriptDir ∧
    PORT = 8000 :=
  ⟨rfl, rfl, rfl, rfl, rfl⟩

/-- C7: when the port is already in use the single bind attempt fails, the
process serves nothing, prints the error message and exits with the
non-zero status 1 — fatal, with no retry. -/
theorem bind_failure_fatal (date : String) (fs : FS) (cwd scriptDir : FsPath)
    (reqs : List Request) (k : Nat) :
    (runProcess date true fs cwd scriptDir reqs k).exitCode = 1 ∧
    (runProcess date true fs cwd scriptDir reqs k).exitCode ≠ 0 ∧
    (runProcess date true fs cwd scriptDir reqs k).bindAttempts = 1 ∧
    (runProcess date true fs cwd scriptDir reqs k).responses = [] ∧
    (runProcess date true fs cwd scriptDir reqs k).stdoutLines =
      ["OSError: [Errno 98] Address already in use"] := by
  refine ⟨rfl, ?_, rfl, rfl, rfl⟩
  intro h
  exact Nat.one_ne_zero h

/-- C8: with the port free, a run interrupted after `k` fully answered
requests exits with status 0, prints the shutdown confirmation, and its
responses are exactly the complete handling of the first `k` accepted
requests — every response already being written completes and no later
request is answered. -/
theorem interrupt_orderly_shutdown (date : String) (fs : FS)
    (cwd scriptDir : FsPath) (reqs : List Request) (k : Nat) :
    (runProcess date false fs cwd scriptDir reqs k).exitCode = 0 ∧
    shutdownMessage ∈ (runProcess date false fs cwd scriptDir reqs k).stdoutLines ∧
    (runProcess date false fs cwd scriptDir reqs k).responses =
      (reqs.take k).map (handleRequest date fs scriptDir) ∧
    (runProcess date false fs cwd scriptDir reqs k).responses.length =
      min k reqs.length := by
  refine ⟨rfl, ?_, rfl, ?_⟩
  · simp [runProcess]
  · simp [runProcess, serveAll, startupConfig]

/-- C9: the injected CORS header values are fixed constants: any two
requests, whatever their methods, paths or request headers, receive
responses carrying identical values for the three CORS headers, namely the
specified constants — the injected values depend on no request data. -/
theorem cors_values_request_independent (date : String) (fs : FS)
    (root : FsPath) (r1 r2 : Request) :
    corsValues (handleRequest date fs root r1) =
      corsValues (handleRequest date fs root r2) ∧
    corsValues (handleRequest date fs root r1) =
      (some "*", some "GET, POST, OPTIONS", some "*") := by
  refine ⟨?_, corsValues_handleRequest date fs root r1⟩
  rw [corsValues_handleRequest date fs root r1,
    corsValues_handleRequest date fs root r2]

/-- C10: the OPTIONS response carries no Content-Length and no Content-Type
header: its header list is exactly the default headers followed by the three
CORS headers, and its body is empty, so the empty body is signalled only by
the absence of body bytes. -/
theorem options_no_content_headers (date : String) (fs : FS)
    (root : FsPath) (p : String) (hs : List (String × String)) :
    List.lookup "Content-Length"
      (handleRequest date fs root ⟨"OPTIONS", p, hs⟩).headers = none ∧
    List.lookup "Content-Type"
      (handleRequest date fs root ⟨"OPTIONS", p, hs⟩).headers = none ∧
    (handleRequest date fs root ⟨"OPTIONS", p, hs⟩).headers =
      defaultHeaders date ++ corsHeaders ∧
    (handleRequest date fs root ⟨"OPTIONS", p, hs⟩).body = [] :=
  ⟨rfl, rfl, rfl, rfl⟩

end DevServer
